import Mathlib

/-!
Verification development for the standup-copilot backend.

The definitions below are a shallow embedding of the Python sources:
- `backend/app/services/standup_summary_service.py` (extraction/dispatch pipeline)
- `backend/app/services/voice_endpoint.py` (session orchestrator, VAD gate, session end)
- `backend/app/services/elevenlabs_service.py` (upstream client: buffering, format
  negotiation, callbacks, readiness wait)

External collaborators (Linear tracker, Slack messaging, reasoning backend, JSON
decoding, wall-clock time, websocket transport) are modelled as explicit
environment parameters whose calls return `Except String` values: `.error e`
models a raised Python exception with message `e`.  Timestamps and RMS energies
are modelled as exact rationals.  Every external call made by the pipeline is
additionally recorded in a trace, so "no external call happens" is a provable
statement.
-/

/-- Python truthiness of an `Optional[str]`: `None` and `""` are falsy. -/
def pyTruthyStr : Option String → Bool
  | none => false
  | some s => s ≠ ""

/-- Python truthiness of an `Optional[int]`: `None` and `0` are falsy. -/
def pyTruthyInt : Option Int → Bool
  | none => false
  | some n => n ≠ 0

/-- Python `a or default` on an optional string (`None` and `""` give the default). -/
def pyOrStr (o : Option String) (d : String) : String :=
  match o with
  | none => d
  | some s => if s = "" then d else s

/-- Python `str.title()` restricted to ASCII letters: a cased character is
uppercased when the previous character is not a letter, lowercased otherwise. -/
def pyTitleGo : Bool → List Char → List Char
  | _, [] => []
  | prevAlpha, c :: cs =>
      (if prevAlpha then c.toLower else c.toUpper) :: pyTitleGo c.isAlpha cs

/-- Python `str.title()` (ASCII model). -/
def pyTitle (s : String) : String :=
  ⟨pyTitleGo false s.data⟩

/-- `IssueUpdate` dataclass of `standup_summary_service.py` (lines 23-39),
with the same field defaults. -/
structure IssueUpdate where
  issue_identifier : String
  issue_id : Option String := none
  issue_title : Option String := none
  status : String := "progressing"
  blockers : Option String := none
  dependencies : Option String := none
  estimate_days : Option Int := none
  eta : Option String := none
  next_steps : Option String := none
  escalation_needed : Bool := false
  escalation_reason : Option String := none
  new_assignee_email : Option String := none
  transcript_snippet : Option String := none
deriving Repr, DecidableEq

/-- One decoded record of the reasoning backend's JSON array, as consumed by
`_extract_issue_updates`; `none` models an absent key (so `dict.get` falls back
to its default). -/
structure UpdateData where
  issue_identifier : Option String := none
  status : Option String := none
  blockers : Option String := none
  dependencies : Option String := none
  estimate_days : Option Int := none
  eta : Option String := none
  next_steps : Option String := none
  escalation_needed : Option Bool := none
  escalation_reason : Option String := none
  transcript_snippet : Option String := none
deriving Repr, DecidableEq

/-- The dict returned by `linear_service.get_issue_by_identifier` (only the keys
the pipeline reads). -/
structure IssueInfo where
  id : Option String
  title : Option String
deriving Repr, DecidableEq

/-- The dict returned by `linear_service.create_escalation_issue` (only the keys
the pipeline reads: `success` and the nested `issue`). -/
structure EscCreateResult where
  success : Bool
  identifier : Option String
  escId : Option String
  url : Option String
deriving Repr, DecidableEq

/-- The escalation dict appended to `escalations_created`
(`_create_escalation`, lines 379-387). -/
structure Escalation where
  identifier : Option String
  escId : Option String
  url : Option String
  original_issue : String
deriving Repr, DecidableEq

/-- `SummaryResult` dataclass (lines 41-52).  `processed_at` (wall clock) is
omitted from the model. -/
structure SummaryResult where
  standup_id : String
  total_updates : Nat
  linear_comments_posted : Nat
  escalations_created : List Escalation
  slack_posted : Bool
  summary_text : String
  issue_updates : List IssueUpdate
  errors : List String
deriving Repr, DecidableEq

/-- One transcript entry `{text, timestamp}` as stored by the voice session. -/
structure Transcript where
  text : String
  timestamp : ℚ
deriving Repr, DecidableEq

/-- A transcript entry tagged with its speaker, as built inside
`_format_conversation`. -/
structure Message where
  speaker : String
  text : String
  timestamp : ℚ
deriving Repr, DecidableEq

/-- External calls the pipeline can make, recorded as a trace. -/
inductive ExtCall where
  | llm
  | getIssue (identifier : String)
  | genComment
  | addComment (issueId : String)
  | updEstimate (issueId : String)
  | createEsc
  | genSummary
  | slackSend (channel : String)
deriving Repr, DecidableEq

/-- Environment of external collaborators.  Each function models one call of
the corresponding Python service method; `.error e` models a raised exception. -/
structure Env where
  call_llm : String → Except String String
  json_loads : String → Except String (List UpdateData)
  get_issue_by_identifier : String → Except String (Option IssueInfo)
  generate_linear_comment : IssueUpdate → Except String String
  add_comment : String → String → Except String Bool
  update_issue_estimate : String → Int → Except String Unit
  create_escalation_issue : String → String → String → Option String → Nat →
      Except String EscCreateResult
  generate_standup_summary : List IssueUpdate → String → Except String String
  send_message : String → String → Except String Bool
  today : String

/-- Stable insertion of a message into an already-ordered list, keeping earlier
messages with equal timestamps in front (models the stability of Python
`list.sort(key=timestamp)`). -/
def insertByTs (m : Message) : List Message → List Message
  | [] => [m]
  | x :: xs => if x.timestamp ≤ m.timestamp then x :: insertByTs m xs else m :: x :: xs

/-- Stable sort by timestamp (model of `all_messages.sort(key=lambda x: x["timestamp"])`). -/
def stableSortByTs (l : List Message) : List Message :=
  l.foldl (fun acc m => insertByTs m acc) []

/-- `StandupSummaryService._format_conversation` (lines 198-230): tag the user
entries as "Developer" and the agent entries as "AI Moderator", sort stably by
timestamp, drop empty texts, and join `speaker: text` lines with newlines. -/
def format_conversation (user_transcripts agent_transcripts : List Transcript) : String :=
  let all_messages :=
    user_transcripts.map (fun t => Message.mk "Developer" t.text t.timestamp) ++
    agent_transcripts.map (fun t => Message.mk "AI Moderator" t.text t.timestamp)
  let sorted := stableSortByTs all_messages
  let lines := (sorted.filter (fun m => m.text ≠ "")).map
    (fun m => m.speaker ++ ": " ++ m.text)
  String.intercalate "\n" lines

/-- Cleanup of the raw LLM response before decoding
(`_extract_issue_updates`, lines 296-304): strip, drop a leading "```json" or
"```", drop a trailing "```", and strip again (the final strip is the
`response.strip()` inside `json.loads(response.strip())`). -/
def cleanResponse (response : String) : String :=
  let r := response.trim
  let r := if r.startsWith "```json" then r.drop 7 else r
  let r := if r.startsWith "```" then r.drop 3 else r
  let r := if r.endsWith "```" then r.dropRight 3 else r
  r.trim

/-- Construction of one `IssueUpdate` from a decoded record
(`_extract_issue_updates`, lines 311-322), with the `dict.get` defaults. -/
def mkIssueUpdate (d : UpdateData) : IssueUpdate :=
  { issue_identifier := d.issue_identifier.getD "UNKNOWN"
    status := d.status.getD "progressing"
    blockers := d.blockers
    dependencies := d.dependencies
    estimate_days := d.estimate_days
    eta := d.eta
    next_steps := d.next_steps
    escalation_needed := d.escalation_needed.getD false
    escalation_reason := d.escalation_reason
    transcript_snippet := d.transcript_snippet }

/-- `StandupSummaryService._extract_issue_updates` (lines 232-330).  The fixed
instruction strings sent to the backend do not influence control flow and are
elided: the LLM call is keyed by the conversation text.  The whole body is one
`try` whose `except` returns `[]`, so a failing LLM call or a failing decode
both yield the empty list and never raise.  Returns the updates together with
the external calls made. -/
def extract_issue_updates (env : Env) (conversation : String) :
    List IssueUpdate × List ExtCall :=
  match env.call_llm conversation with
  | .error _ => ([], [ExtCall.llm])
  | .ok response =>
      match env.json_loads (cleanResponse response) with
      | .error _ => ([], [ExtCall.llm])
      | .ok updates_data => (updates_data.map mkIssueUpdate, [ExtCall.llm])

/-- Title of an escalation ticket (`_create_escalation`, line 350). -/
def escalationTitle (u : IssueUpdate) : String :=
  "[ESCALATION] " ++ u.issue_identifier ++ ": " ++
    pyOrStr u.escalation_reason "Requires attention"

/-- Description body of an escalation ticket (`_create_escalation`, lines 352-369). -/
def escalationDescription (u : IssueUpdate) : String :=
  "## Escalation from Standup\n\n" ++
  "**Original Issue:** " ++ u.issue_identifier ++ " - " ++
    pyOrStr u.issue_title "N/A" ++ "\n\n" ++
  "**Reason for Escalation:**\n" ++
    pyOrStr u.escalation_reason "Issue requires immediate attention" ++ "\n\n" ++
  "**Current Status:** " ++ u.status ++ "\n\n" ++
  "**Blockers:**\n" ++ pyOrStr u.blockers "None specified" ++ "\n\n" ++
  "**Dependencies:**\n" ++ pyOrStr u.dependencies "None specified" ++ "\n\n" ++
  "---\n*This ticket was automatically created by StandupAI*\n"

/-- `StandupSummaryService._create_escalation` (lines 344-388): create the
linked ticket with priority 1; on `success` build the escalation dict, else
return `none`.  Exceptions propagate to the per-update handler. -/
def create_escalation (env : Env) (team_id : String) (u : IssueUpdate) :
    Except String (Option Escalation) :=
  match env.create_escalation_issue team_id (escalationTitle u)
      (escalationDescription u) u.issue_id 1 with
  | .error e => .error e
  | .ok res =>
      if res.success then
        .ok (some { identifier := res.identifier, escId := res.escId, url := res.url,
                    original_issue := u.issue_identifier })
      else .ok none

/-- The error string appended by the per-update `except` handler (line 150). -/
def errMsg (u : IssueUpdate) (e : String) : String :=
  "Error processing " ++ u.issue_identifier ++ ": " ++ e

/-- Outcome of processing one update in the Step-3 loop: the (possibly
lookup-enriched) update, the increment to `linear_comments`, created
escalations, recorded errors, and external calls made.  Effects that happened
before an exception are kept, exactly as in the mutable Python loop. -/
structure UpdOutcome where
  upd : IssueUpdate
  commentsDelta : Nat
  escs : List Escalation
  errs : List String
  calls : List ExtCall
deriving Repr

/-- Escalation step of the per-update loop (lines 140-147). -/
def stepEscalation (env : Env) (team_id : String) (u : IssueUpdate)
    (cd : Nat) (tr : List ExtCall) : UpdOutcome :=
  if u.escalation_needed then
    match create_escalation env team_id u with
    | .error e => ⟨u, cd, [], [errMsg u e], tr ++ [ExtCall.createEsc]⟩
    | .ok none => ⟨u, cd, [], [], tr ++ [ExtCall.createEsc]⟩
    | .ok (some esc) => ⟨u, cd, [esc], [], tr ++ [ExtCall.createEsc]⟩
  else ⟨u, cd, [], [], tr⟩

/-- Estimate step of the per-update loop (lines 133-137): only a truthy
`estimate_days` triggers the tracker call. -/
def stepEstimate (env : Env) (team_id : String) (u : IssueUpdate) (iid : String)
    (cd : Nat) (tr : List ExtCall) : UpdOutcome :=
  if pyTruthyInt u.estimate_days then
    match u.estimate_days with
    | none => stepEscalation env team_id u cd tr
    | some n =>
        match env.update_issue_estimate iid n with
        | .error e => ⟨u, cd, [], [errMsg u e], tr ++ [ExtCall.updEstimate iid]⟩
        | .ok _ => stepEscalation env team_id u cd (tr ++ [ExtCall.updEstimate iid])
  else stepEscalation env team_id u cd tr

/-- Comment step of the per-update loop (lines 126-130): generate the comment
text, post it, and count it only when the tracker reports `success`. -/
def stepComment (env : Env) (team_id : String) (u : IssueUpdate) (iid : String)
    (tr : List ExtCall) : UpdOutcome :=
  match env.generate_linear_comment u with
  | .error e => ⟨u, 0, [], [errMsg u e], tr ++ [ExtCall.genComment]⟩
  | .ok comment =>
      match env.add_comment iid comment with
      | .error e => ⟨u, 0, [], [errMsg u e], tr ++ [ExtCall.genComment, ExtCall.addComment iid]⟩
      | .ok success =>
          stepEstimate env team_id u iid (if success then 1 else 0)
            (tr ++ [ExtCall.genComment, ExtCall.addComment iid])

/-- The `if update.issue_id:` guard (line 124) and everything under it. -/
def stepAfterLookup (env : Env) (team_id : String) (u : IssueUpdate)
    (tr : List ExtCall) : UpdOutcome :=
  match u.issue_id with
  | none => ⟨u, 0, [], [], tr⟩
  | some iid =>
      if iid = "" then ⟨u, 0, [], [], tr⟩
      else stepComment env team_id u iid tr

/-- One iteration of the Step-3 loop of `process_session_end` (lines 115-152):
optional lookup by human-readable identifier, then comment / estimate /
escalation, with the per-update `except` recording one error string. -/
def processUpdate (env : Env) (team_id : String) (u : IssueUpdate) : UpdOutcome :=
  if !pyTruthyStr u.issue_id && u.issue_identifier != "" then
    match env.get_issue_by_identifier u.issue_identifier with
    | .error e => ⟨u, 0, [], [errMsg u e], [ExtCall.getIssue u.issue_identifier]⟩
    | .ok none => stepAfterLookup env team_id u [ExtCall.getIssue u.issue_identifier]
    | .ok (some info) =>
        stepAfterLookup env team_id
          { u with issue_id := info.id, issue_title := info.title }
          [ExtCall.getIssue u.issue_identifier]
  else stepAfterLookup env team_id u []

/-- Accumulated state of the Step-3 loop. -/
structure LoopAcc where
  updates : List IssueUpdate
  comments : Nat
  escs : List Escalation
  errs : List String
  calls : List ExtCall
deriving Repr

/-- The Step-3 loop over all extracted updates, threading the accumulators in
program order. -/
def processUpdates (env : Env) (team_id : String) (us : List IssueUpdate) : LoopAcc :=
  us.foldl
    (fun acc u =>
      let o := processUpdate env team_id u
      ⟨acc.updates ++ [o.upd], acc.comments + o.commentsDelta, acc.escs ++ o.escs,
       acc.errs ++ o.errs, acc.calls ++ o.calls⟩)
    ⟨[], 0, [], [], []⟩

/-- `StandupSummaryService._generate_fallback_summary` (lines 456-477). -/
def generate_fallback_summary (issue_updates : List IssueUpdate) : String :=
  if issue_updates = [] then
    "Standup completed. No specific issue updates were captured."
  else
    let header := "Standup completed with " ++ toString issue_updates.length ++
      " issue updates:\n"
    let body := issue_updates.foldl
      (fun lines u =>
        let emoji :=
          if u.status = "progressing" then "🔄"
          else if u.status = "blocked" then "🔴"
          else if u.status = "completed" then "✅"
          else if u.status = "at_risk" then "⚠️"
          else "⚪"
        let lines := lines ++ [emoji ++ " " ++ u.issue_identifier ++ ": " ++ pyTitle u.status]
        let lines := match u.blockers with
          | some b => if b = "" then lines else lines ++ ["   Blockers: " ++ b]
          | none => lines
        match u.eta with
          | some e => if e = "" then lines else lines ++ ["   ETA: " ++ e]
          | none => lines)
      [header]
    String.intercalate "\n" body

/-- Per-issue status text of the Slack digest (`_post_slack_summary`, lines 410-417). -/
def slackStatusText (status : String) : String :=
  if status = "progressing" then "Progressing"
  else if status = "completed" then "Completed ✅"
  else if status = "blocked" then "Blocked 🔴"
  else if status = "at_risk" then "At Risk ⚠️"
  else pyTitle status

/-- The formatted Slack digest text (`_post_slack_summary`, lines 399-449). -/
def slackDigest (today : String) (issue_updates : List IssueUpdate)
    (escalations : List Escalation) : String :=
  let sep := "━━━━━━━━━━━━━━━━━━━━━━━━━━━━"
  let lines := ["*📋 Daily Standup Digest — " ++ today ++ "*", "", sep]
  let lines := issue_updates.foldl
    (fun lines u =>
      let lines := lines ++ ["",
        "*Issue:* " ++ u.issue_identifier ++ " (" ++ pyOrStr u.issue_title "N/A" ++ ")",
        "*Status:* " ++ slackStatusText u.status]
      let lines := match u.eta with
        | some e => if e = "" then lines else lines ++ ["*ETA:* " ++ e]
        | none => lines
      let lines := match u.blockers with
        | some b => if b = "" then lines ++ ["*Blockers:* None"]
                    else lines ++ ["*Blockers:* " ++ b]
        | none => lines ++ ["*Blockers:* None"]
      let lines := match u.next_steps with
        | some n => if n = "" then lines else lines ++ ["*Action:* " ++ n]
        | none => lines
      let lines := match u.new_assignee_email with
        | some a => if a = "" then lines else lines ++ ["*Working Person:* " ++ a]
        | none => lines
      lines ++ ["", sep])
    lines
  let lines :=
    if escalations = [] then lines
    else
      (lines ++ ["", "*🚨 Escalations Created:*"] ++
        escalations.map (fun e =>
          "• " ++ pyOrStr e.identifier "None" ++ ": Created for " ++ e.original_issue)) ++
      ["", sep]
  String.intercalate "\n" lines

/-- The early-return result when the merged conversation is too short
(`process_session_end`, lines 91-103). -/
def tooShortResult (standup_id : String) : SummaryResult :=
  { standup_id := standup_id
    total_updates := 0
    linear_comments_posted := 0
    escalations_created := []
    slack_posted := false
    summary_text := "Conversation was too short to extract meaningful updates."
    issue_updates := []
    errors := ["Conversation too short"] }

/-- `StandupSummaryService.process_session_end` (lines 58-196), returning the
`SummaryResult` together with the trace of external calls.  The caller-side
`except` around `_extract_issue_updates` (lines 109-112) is dead in the model —
as in the source — because `_extract_issue_updates` catches every exception
itself. -/
def process_session_end (env : Env) (standup_id : String)
    (user_transcripts agent_transcripts : List Transcript)
    (team_id slack_channel_id : String) : SummaryResult × List ExtCall :=
  let conversation := format_conversation user_transcripts agent_transcripts
  if conversation = "" ∨ conversation.length < 50 then
    (tooShortResult standup_id, [])
  else
    let ex := extract_issue_updates env conversation
    let la := processUpdates env team_id ex.1
    let su :=
      match env.generate_standup_summary la.updates team_id with
      | .ok s => (s, ([] : List String), [ExtCall.genSummary])
      | .error e =>
          (generate_fallback_summary la.updates,
           ["Summary generation error: " ++ e], [ExtCall.genSummary])
    let sl :=
      if slack_channel_id ≠ "" then
        match env.send_message slack_channel_id
            (slackDigest env.today la.updates la.escs) with
        | .ok ok => (ok, ([] : List String), [ExtCall.slackSend slack_channel_id])
        | .error e => (false, ["Slack error: " ++ e], [ExtCall.slackSend slack_channel_id])
      else (false, ([] : List String), ([] : List ExtCall))
    ({ standup_id := standup_id
       total_updates := la.updates.length
       linear_comments_posted := la.comments
       escalations_created := la.escs
       slack_posted := sl.1
       summary_text := su.1
       issue_updates := la.updates
       errors := la.errs ++ su.2.1 ++ sl.2.1 },
     ex.2 ++ la.calls ++ su.2.2 ++ sl.2.2)

/-- C4: a merged conversation shorter than 50 characters short-circuits: the
result is the fixed "too short" result (zero updates, the "Conversation too
short" marker) and no external call is made. -/
theorem short_conversation_short_circuits (env : Env) (standup_id team_id ch : String)
    (user_transcripts agent_transcripts : List Transcript)
    (h : (format_conversation user_transcripts agent_transcripts).length < 50) :
    process_session_end env standup_id user_transcripts agent_transcripts team_id ch =
      (tooShortResult standup_id, []) ∧
    (tooShortResult standup_id).total_updates = 0 ∧
    "Conversation too short" ∈ (tooShortResult standup_id).errors := by
  refine ⟨?_, rfl, by simp [tooShortResult]⟩
  unfold process_session_end
  rw [if_pos (Or.inr h)]

/-- Witness for C4 at empty transcript lists. -/
theorem short_conversation_short_circuits_witness :
    (format_conversation [] []).length < 50 ∧
    process_session_end
      { call_llm := fun _ => .ok ""
        json_loads := fun _ => .ok []
        get_issue_by_identifier := fun _ => .ok none
        generate_linear_comment := fun _ => .ok ""
        add_comment := fun _ _ => .ok true
        update_issue_estimate := fun _ _ => .ok ()
        create_escalation_issue := fun _ _ _ _ _ => .ok ⟨false, none, none, none⟩
        generate_standup_summary := fun _ _ => .ok ""
        send_message := fun _ _ => .ok true
        today := "Jan 01" } "s1" [] [] "team" "chan" =
      (tooShortResult "s1", []) :=
  ⟨by decide, (short_conversation_short_circuits _ "s1" "team" "chan" [] [] (by decide)).1⟩

/-- Shared stub environment in which every collaborator call succeeds. -/
def envStub : Env :=
  { call_llm := fun _ => .ok "[]"
    json_loads := fun _ => .ok [{}]
    get_issue_by_identifier := fun _ => .ok none
    generate_linear_comment := fun _ => .ok ""
    add_comment := fun _ _ => .ok true
    update_issue_estimate := fun _ _ => .ok ()
    create_escalation_issue := fun _ _ _ _ _ => .ok ⟨false, none, none, none⟩
    generate_standup_summary := fun _ _ => .ok "All good."
    send_message := fun _ _ => .ok true
    today := "Jan 01" }

/-- C2: when the tracker's comment-post call fails for the second of three
updates (and the other collaborator calls succeed), the first and third are
still fully processed — their comments are generated and posted, giving a
comment count of 2 and the full call trace — and the error list is exactly one
entry naming the second update's identifier. -/
theorem second_comment_failure_isolated (env : Env) (team_id : String)
    (u₁ u₂ u₃ : IssueUpdate) (ia ib ic ca cb cc m : String)
    (h1 : u₁.issue_id = some ia) (h2 : u₂.issue_id = some ib) (h3 : u₃.issue_id = some ic)
    (hia : ia ≠ "") (hib : ib ≠ "") (hic : ic ≠ "")
    (hg1 : env.generate_linear_comment u₁ = .ok ca)
    (hg2 : env.generate_linear_comment u₂ = .ok cb)
    (hg3 : env.generate_linear_comment u₃ = .ok cc)
    (ha1 : env.add_comment ia ca = .ok true)
    (ha2 : env.add_comment ib cb = .error m)
    (ha3 : env.add_comment ic cc = .ok true)
    (he1 : u₁.estimate_days = none) (he3 : u₃.estimate_days = none)
    (hs1 : u₁.escalation_needed = false) (hs3 : u₃.escalation_needed = false) :
    (processUpdates env team_id [u₁, u₂, u₃]).comments = 2 ∧
    (processUpdates env team_id [u₁, u₂, u₃]).errs =
      ["Error processing " ++ u₂.issue_identifier ++ ": " ++ m] ∧
    (processUpdates env team_id [u₁, u₂, u₃]).escs = [] ∧
    (processUpdates env team_id [u₁, u₂, u₃]).calls =
      [ExtCall.genComment, ExtCall.addComment ia, ExtCall.genComment, ExtCall.addComment ib,
       ExtCall.genComment, ExtCall.addComment ic] := by
  have p1 : processUpdate env team_id u₁ =
      ⟨u₁, 1, [], [], [ExtCall.genComment, ExtCall.addComment ia]⟩ := by
    simp [processUpdate, pyTruthyStr, h1, hia, stepAfterLookup, stepComment, hg1, ha1,
      stepEstimate, he1, pyTruthyInt, stepEscalation, hs1]
  have p2 : processUpdate env team_id u₂ =
      ⟨u₂, 0, [], [errMsg u₂ m], [ExtCall.genComment, ExtCall.addComment ib]⟩ := by
    simp [processUpdate, pyTruthyStr, h2, hib, stepAfterLookup, stepComment, hg2, ha2]
  have p3 : processUpdate env team_id u₃ =
      ⟨u₃, 1, [], [], [ExtCall.genComment, ExtCall.addComment ic]⟩ := by
    simp [processUpdate, pyTruthyStr, h3, hic, stepAfterLookup, stepComment, hg3, ha3,
      stepEstimate, he3, pyTruthyInt, stepEscalation, hs3]
  simp [processUpdates, p1, p2, p3, errMsg]

/-- Three concrete updates for exercising the Step-3 loop. -/
def uA : IssueUpdate := { issue_identifier := "ENG-1", issue_id := some "id1" }

/-- Second concrete update; its comment post will fail. -/
def uB : IssueUpdate := { issue_identifier := "ENG-2", issue_id := some "id2" }

/-- Third concrete update. -/
def uC : IssueUpdate := { issue_identifier := "ENG-3", issue_id := some "id3" }

/-- Environment in which only the comment post for issue id2 fails. -/
def envMidFail : Env :=
  { envStub with
    generate_linear_comment := fun u => .ok ("c-" ++ u.issue_identifier)
    add_comment := fun iid _ => if iid = "id2" then .error "boom" else .ok true }

/-- Witness for C2 at three concrete updates with the middle comment post failing. -/
theorem second_comment_failure_isolated_witness :
    (processUpdates envMidFail "team" [uA, uB, uC]).comments = 2 ∧
    (processUpdates envMidFail "team" [uA, uB, uC]).errs =
      ["Error processing " ++ uB.issue_identifier ++ ": " ++ "boom"] ∧
    (processUpdates envMidFail "team" [uA, uB, uC]).escs = [] ∧
    (processUpdates envMidFail "team" [uA, uB, uC]).calls =
      [ExtCall.genComment, ExtCall.addComment "id1", ExtCall.genComment,
       ExtCall.addComment "id2", ExtCall.genComment, ExtCall.addComment "id3"] :=
  second_comment_failure_isolated envMidFail "team" uA uB uC
    "id1" "id2" "id3" "c-ENG-1" "c-ENG-2" "c-ENG-3" "boom"
    rfl rfl rfl (by decide) (by decide) (by decide)
    rfl rfl rfl rfl rfl rfl rfl rfl rfl rfl

/-- Environment whose reasoning backend answers with undecodable text. -/
def envDecodeFail : Env :=
  { envStub with
    call_llm := fun _ => .ok "I could not produce JSON today."
    json_loads := fun _ => .error "Expecting value: line 1 column 1 (char 0)" }

/-- A transcript long enough to pass the 50-character gate. -/
def longTranscript : List Transcript :=
  [⟨"I kept working on the login fix and it is nearly done now", 1⟩]

/-- Counterexample to C3: with an undecodable backend response the result's
update list is empty, but the error list is empty too — the decode error is
never recorded in it, contradicting the claim that the error list records the
decode error. -/
theorem decode_error_not_recorded :
    (process_session_end envDecodeFail "s1" longTranscript [] "team" "").1.issue_updates = [] ∧
    (process_session_end envDecodeFail "s1" longTranscript [] "team" "").1.errors = [] := by
  decide

/-- C3 (amended): an undecodable backend response degrades to an empty update
list and no exception propagates, but the decode error is only logged, never
recorded: when the later summary step succeeds and no messaging channel is
configured, the returned error list is empty. -/
theorem decode_failure_degrades (env : Env) (standup_id team_id : String)
    (user_transcripts agent_transcripts : List Transcript) (response e s : String)
    (hlen : 50 ≤ (format_conversation user_transcripts agent_transcripts).length)
    (hllm : env.call_llm (format_conversation user_transcripts agent_transcripts) = .ok response)
    (hdec : env.json_loads (cleanResponse response) = .error e)
    (hsum : env.generate_standup_summary [] team_id = .ok s) :
    (process_session_end env standup_id user_transcripts agent_transcripts team_id "").1.issue_updates
      = [] ∧
    (process_session_end env standup_id user_transcripts agent_transcripts team_id "").1.total_updates
      = 0 ∧
    (process_session_end env standup_id user_transcripts agent_transcripts team_id "").1.errors
      = [] := by
  have hne : ¬(format_conversation user_transcripts agent_transcripts = "" ∨
      (format_conversation user_transcripts agent_transcripts).length < 50) := by
    rintro (h | h)
    · rw [h] at hlen; simp at hlen
    · omega
  simp only [process_session_end]
  rw [if_neg hne]
  simp [extract_issue_updates, hllm, hdec, processUpdates, hsum]

/-- Witness for C3's amended theorem at the concrete undecodable response. -/
theorem decode_failure_degrades_witness :
    (process_session_end envDecodeFail "s1" longTranscript [] "team" "").1.total_updates = 0 :=
  (decode_failure_degrades envDecodeFail "s1" "team" longTranscript []
    "I could not produce JSON today." "Expecting value: line 1 column 1 (char 0)"
    "All good." (by decide) rfl rfl rfl).2.1

/-- C10: when decode succeeds, the returned list is exactly the decoded records
converted with fixed defaults: an omitted identifier becomes "UNKNOWN", an
omitted status becomes "progressing", an omitted escalation flag becomes
`false`. -/
theorem decoded_updates_get_defaults (env : Env) (conversation response : String)
    (ds : List UpdateData)
    (hllm : env.call_llm conversation = .ok response)
    (hdec : env.json_loads (cleanResponse response) = .ok ds) :
    (extract_issue_updates env conversation).1 = ds.map mkIssueUpdate ∧
    ∀ d ∈ ds,
      (d.issue_identifier = none → (mkIssueUpdate d).issue_identifier = "UNKNOWN") ∧
      (d.status = none → (mkIssueUpdate d).status = "progressing") ∧
      (d.escalation_needed = none → (mkIssueUpdate d).escalation_needed = false) := by
  constructor
  · simp [extract_issue_updates, hllm, hdec]
  · intro d _
    refine ⟨?_, ?_, ?_⟩ <;> intro h <;> simp [mkIssueUpdate, h]

/-- Witness for C10 at a record with all fields omitted. -/
theorem decoded_updates_get_defaults_witness :
    (extract_issue_updates envStub "conv").1 = [({} : UpdateData)].map mkIssueUpdate ∧
    ∀ d ∈ [({} : UpdateData)],
      (d.issue_identifier = none → (mkIssueUpdate d).issue_identifier = "UNKNOWN") ∧
      (d.status = none → (mkIssueUpdate d).status = "progressing") ∧
      (d.escalation_needed = none → (mkIssueUpdate d).escalation_needed = false) :=
  decoded_updates_get_defaults envStub "conv" "[]" [{}] rfl rfl

/-!
Upstream client model (`elevenlabs_service.py`): handler state, outbound
format negotiation, pre-ready buffering, callback registry, readiness wait.
Transport sends are modelled by an oracle `ok : Nat → Bool` giving the success
of `websocket.send` for each payload-format candidate at that moment.
-/

/-- Mutable state of `ElevenLabsVoiceHandler` relevant to buffering and
format negotiation. -/
structure HState where
  has_socket : Bool
  is_connected : Bool
  conversation_ready : Bool
  cached_format : Option Nat
  pending_audio : List (List Nat)
  pcm_buffer : List Nat
  last_flush : ℚ
deriving Repr, DecidableEq

/-- Even-length padding applied before a send (`_send_chunk`, lines 397-398). -/
def padEven (pcm : List Nat) : List Nat :=
  if pcm.length % 2 = 1 then pcm ++ [0] else pcm

/-- The probing loop of `_send_chunk` (lines 420-429) over the remaining
candidate indices: the first candidate the transport accepts is cached; if
every candidate fails, the final failure escapes to the outer handler, which
clears `is_connected` (lines 431-439).  Returns the new state and the list of
candidate indices attempted, in order. -/
def probeFrom (s : HState) (ok : Nat → Bool) : List Nat → HState × List Nat
  | [] => ({ s with is_connected := false }, [])
  | i :: rest =>
      if ok i then ({ s with cached_format := some i }, [i])
      else
        let r := probeFrom s ok rest
        (r.1, i :: r.2)

/-- `ElevenLabsVoiceHandler._send_chunk` (lines 387-439): guard on socket and
connected flag, skip empty chunks, use the cached payload format when present
(falling back to a fresh probe over all four candidates when the cached send
fails), otherwise probe candidates 0..3 in order. -/
def send_chunk (s : HState) (ok : Nat → Bool) (pcm : List Nat) : HState × List Nat :=
  if ¬(s.has_socket = true ∧ s.is_connected = true) then (s, [])
  else if pcm = [] then (s, [])
  else
    match s.cached_format with
    | some i =>
        if ok i then (s, [i])
        else
          let r := probeFrom { s with cached_format := none } ok [0, 1, 2, 3]
          (r.1, i :: r.2)
    | none => probeFrom s ok [0, 1, 2, 3]

/-- A sequence of `_send_chunk` calls; each element supplies the transport
oracle at that moment and the chunk.  Returns the final state and the attempted
candidate indices of every call. -/
def runSends (s : HState) : List ((Nat → Bool) × List Nat) → HState × List (List Nat)
  | [] => (s, [])
  | (ok, pcm) :: rest =>
      let r := send_chunk s ok pcm
      let rs := runSends r.1 rest
      (rs.1, r.2 :: rs.2)

/-- Helper: once candidate 1 is cached, every send whose transport accepts
candidate 1 attempts exactly `[1]` and preserves the cache and flags. -/
theorem runSends_cached_one (sends : List ((Nat → Bool) × List Nat)) :
    ∀ s : HState, s.has_socket = true → s.is_connected = true →
      s.cached_format = some 1 →
      (∀ x ∈ sends, x.1 1 = true ∧ x.2 ≠ []) →
      (runSends s sends).2 = sends.map (fun _ => [1]) := by
  induction sends with
  | nil => intro s _ _ _ _; simp [runSends]
  | cons hd tl ih =>
      intro s hsock hconn hcache hall
      obtain ⟨hok, hpcm⟩ := hall hd (List.mem_cons_self hd tl)
      have hsend : send_chunk s hd.1 hd.2 = (s, [1]) := by
        simp [send_chunk, hsock, hconn, hcache, hpcm, hok]
      simp only [runSends, hsend]
      rw [ih s hsock hconn hcache (fun x hx => hall x (List.mem_cons_of_mem hd hx))]
      simp

/-- C7: if the first send on a connection fails with payload-format candidate 0
and succeeds with candidate 1, then — for as long as the transport keeps
accepting candidate 1 — every later send attempts exactly candidate 1, with no
re-probing of the candidate list. -/
theorem format_cache_no_reprobe (s₀ : HState) (ok₀ : Nat → Bool) (p₀ : List Nat)
    (rest : List ((Nat → Bool) × List Nat))
    (hsock : s₀.has_socket = true) (hconn : s₀.is_connected = true)
    (hcache : s₀.cached_format = none)
    (h0 : ok₀ 0 = false) (h1 : ok₀ 1 = true) (hp : p₀ ≠ [])
    (hrest : ∀ x ∈ rest, x.1 1 = true ∧ x.2 ≠ []) :
    (runSends s₀ ((ok₀, p₀) :: rest)).2 = [0, 1] :: rest.map (fun _ => [1]) := by
  have hfirst : send_chunk s₀ ok₀ p₀ = ({ s₀ with cached_format := some 1 }, [0, 1]) := by
    simp [send_chunk, hsock, hconn, hcache, hp, probeFrom, h0, h1]
  simp only [runSends, hfirst]
  rw [runSends_cached_one rest { s₀ with cached_format := some 1 } hsock hconn rfl hrest]

/-- Witness for C7: one failing-then-succeeding first send followed by two
ordinary sends. -/
theorem format_cache_no_reprobe_witness :
    (runSends ⟨true, true, false, none, [], [], 0⟩
      [(fun i => i == 1, [7, 7]), (fun _ => true, [8]), (fun i => i == 1, [9])]).2 =
      [[0, 1], [1], [1]] := by
  have h := format_cache_no_reprobe ⟨true, true, false, none, [], [], 0⟩
    (fun i => i == 1) [7, 7] [(fun _ => true, [8]), (fun i => i == 1, [9])]
    rfl rfl rfl rfl rfl (by decide)
    (by
      intro x hx
      simp only [List.mem_cons, List.not_mem_nil, or_false] at hx
      rcases hx with h | h <;> subst h <;> exact ⟨rfl, by decide⟩)
  simpa using h

/-- The callback registry of `ElevenLabsVoiceHandler` (`response_callbacks`), a
dict from event type to the registered callback; callbacks are identified by
numeric tokens. -/
def registerCallbackReg (reg : String → Option Nat) (event : String) (cb : Nat) :
    String → Option Nat :=
  fun e => if e = event then some cb else reg e

/-- `_notify` (lines 445-457): look up the single callback registered for the
event type; `none` means no callback is invoked. -/
def notifyTarget (reg : String → Option Nat) (event : String) : Option Nat :=
  reg event

/-- C8: registering a second callback for the same event type silently replaces
the first: a later event of that type invokes the most recent callback, and the
replaced callback is invoked for no event type it was not otherwise registered
for. -/
theorem register_callback_replaces (reg : String → Option Nat) (e : String) (c₁ c₂ : Nat)
    (h : c₁ ≠ c₂) :
    notifyTarget (registerCallbackReg (registerCallbackReg reg e c₁) e c₂) e = some c₂ ∧
    notifyTarget (registerCallbackReg (registerCallbackReg reg e c₁) e c₂) e ≠ some c₁ ∧
    ∀ e', e' ≠ e →
      notifyTarget (registerCallbackReg (registerCallbackReg reg e c₁) e c₂) e' = reg e' := by
  refine ⟨by simp [notifyTarget, registerCallbackReg], ?_, ?_⟩
  · simp only [notifyTarget, registerCallbackReg, if_pos rfl]
    exact fun hc => h (Option.some.inj hc).symm
  · intro e' he'
    simp [notifyTarget, registerCallbackReg, he']

/-- Witness for C8 on an empty registry with two distinct callbacks. -/
theorem register_callback_replaces_witness :
    notifyTarget (registerCallbackReg (registerCallbackReg (fun _ => none) "text_response" 1)
      "text_response" 2) "text_response" = some 2 :=
  (register_callback_replaces (fun _ => none) "text_response" 1 2 (by decide)).1

/-- `ElevenLabsVoiceHandler.flush` (lines 377-385): send the accumulated buffer
as one chunk (nothing when empty) and stamp the flush time. -/
def flushBuffer (s : HState) (ok : Nat → Bool) (now : ℚ) : HState × List Nat :=
  if s.pcm_buffer = [] then (s, [])
  else
    let chunk := s.pcm_buffer
    let r := send_chunk { s with pcm_buffer := [] } ok chunk
    ({ r.1 with last_flush := now }, r.2)

/-- `ElevenLabsVoiceHandler.queue_pcm` (lines 355-375): drop the frame when not
connected or empty; before readiness, append to the bounded pending queue
(max 10, drop-oldest); after readiness, extend the accumulation buffer and
flush on the 3200-byte threshold or the 0.1-second interval. -/
def queue_pcm (s : HState) (ok : Nat → Bool) (now : ℚ) (pcm : List Nat) :
    HState × List Nat :=
  if ¬(s.is_connected = true) ∨ pcm = [] then (s, [])
  else if ¬(s.conversation_ready = true) then
    let pend := s.pending_audio ++ [pcm]
    let pend := if pend.length > 10 then pend.drop 1 else pend
    ({ s with pending_audio := pend }, [])
  else
    let s' := { s with pcm_buffer := s.pcm_buffer ++ pcm }
    if 3200 ≤ s'.pcm_buffer.length ∨ 1/10 < now - s'.last_flush then
      flushBuffer s' ok now
    else (s', [])

/-- C9: a frame offered while the client is not connected, or an empty frame,
is silently dropped — the handler state (pending queue, accumulation buffer,
everything) is unchanged and nothing is sent. -/
theorem queue_pcm_disconnected_noop (s : HState) (ok : Nat → Bool) (now : ℚ)
    (pcm : List Nat) (h : s.is_connected = false ∨ pcm = []) :
    queue_pcm s ok now pcm = (s, []) := by
  have h' : ¬(s.is_connected = true) ∨ pcm = [] := by
    rcases h with h | h
    · exact Or.inl (by simp [h])
    · exact Or.inr h
  simp only [queue_pcm]
  rw [if_pos h']

/-- Witness for C9: a nonempty frame offered to a disconnected handler. -/
theorem queue_pcm_disconnected_noop_witness :
    queue_pcm ⟨true, false, false, none, [], [], 0⟩ (fun _ => true) 5 [1, 2] =
      (⟨true, false, false, none, [], [], 0⟩, []) :=
  queue_pcm_disconnected_noop ⟨true, false, false, none, [], [], 0⟩ (fun _ => true) 5 [1, 2]
    (Or.inl rfl)

/-!
Voice-activity gate and session orchestrator models (`voice_endpoint.py`).
A frame is represented by the RMS energy that `_is_speech` computes for it
(the byte-level stride-4 RMS computation involves a real square root; its
result is the exact rational the gate's comparisons consume).  The speech test
`rms > 0.002` is the final line of `_is_speech` (line 254), and the start
decision is lines 196-216 of `process_audio`.
-/

/-- Pre-start VAD counters of `StandupVoiceSession`. -/
structure VadState where
  preStartChunks : Nat
  rmsAccum : ℚ
  rmsSamples : Nat
deriving Repr, DecidableEq

/-- Fresh VAD state (`__init__`, lines 34-36). -/
def vadInit : VadState := ⟨0, 0, 0⟩

/-- Average RMS over pre-start frames (`process_audio`, line 193). -/
def avgRms (s : VadState) : ℚ :=
  if s.rmsSamples = 0 then 0 else s.rmsAccum / s.rmsSamples

/-- The speech test of `_is_speech` (line 254): rms strictly above 0.002. -/
def speechTest (rms : ℚ) : Bool :=
  2 / 1000 < rms

/-- One pre-start frame through the gate (`process_audio`, lines 188-216):
update the counters, then fire when the frame is speech, or 30 frames have
accumulated with average RMS above 0.008, or 100 frames have passed; the
reported reason is "speech", "avg_rms" or "auto" in that priority. -/
def gateStep (s : VadState) (rms : ℚ) : VadState × Bool × String :=
  let speech := speechTest rms
  let s' : VadState := ⟨s.preStartChunks + 1, s.rmsAccum + rms, s.rmsSamples + 1⟩
  let avg := avgRms s'
  let shouldStart :=
    speech || (decide (30 ≤ s'.preStartChunks) && decide (8 / 1000 < avg)) ||
      decide (100 ≤ s'.preStartChunks)
  let reason := if speech then "speech" else if 8 / 1000 < avg then "avg_rms" else "auto"
  (s', shouldStart, reason)

/-- Run the gate over a frame sequence until it fires; returns the 1-based
index of the firing frame and the reported reason. -/
def gateRunAux : VadState → List ℚ → Option (Nat × String)
  | _, [] => none
  | s, r :: rs =>
      let g := gateStep s r
      if g.2.1 then some (g.1.preStartChunks, g.2.2) else gateRunAux g.1 rs

/-- Run the gate from a fresh session over a frame sequence. -/
def gateRun (frames : List ℚ) : Option (Nat × String) :=
  gateRunAux vadInit frames

/-- C6: over any sequence of at least 30 frames all with RMS above 0.008, the
gate fires no later than frame 30, with reason "avg_rms" unless the speech
condition (RMS above 0.002) holds at the firing frame, in which case the reason
is "speech".  (Since 0.008 > 0.002, the speech condition fires already at
frame 1, so the reason is "speech".) -/
theorem sustained_rms_starts_by_30 (frames : List ℚ)
    (h30 : 30 ≤ frames.length) (hall : ∀ r ∈ frames, 8 / 1000 < r) :
    ∃ k reason, gateRun frames = some (k, reason) ∧ k ≤ 30 ∧
      (reason = "avg_rms" ∨
        (reason = "speech" ∧ ∃ r, frames.head? = some r ∧ speechTest r = true)) := by
  match frames, h30 with
  | r :: rs, _ =>
      have hr : 8 / 1000 < r := hall r (List.mem_cons_self r rs)
      have hsp : speechTest r = true := by
        simp only [speechTest, decide_eq_true_eq]
        linarith
      refine ⟨1, "speech", ?_, by norm_num, Or.inr ⟨rfl, r, rfl, hsp⟩⟩
      simp [gateRun, gateRunAux, gateStep, vadInit, hsp]

/-- Witness for C6 on 30 frames of RMS 0.01. -/
theorem sustained_rms_starts_by_30_witness :
    30 ≤ (List.replicate 30 ((1 : ℚ) / 100)).length ∧
    ∃ k reason, gateRun (List.replicate 30 ((1 : ℚ) / 100)) = some (k, reason) ∧ k ≤ 30 ∧
      (reason = "avg_rms" ∨
        (reason = "speech" ∧
          ∃ r, (List.replicate 30 ((1 : ℚ) / 100)).head? = some r ∧ speechTest r = true)) :=
  ⟨by decide,
   sustained_rms_starts_by_30 (List.replicate 30 ((1 : ℚ) / 100)) (by decide)
     (by
       intro r hr
       rw [List.eq_of_mem_replicate hr]
       norm_num)⟩

/-!
Readiness wait and its surfacing to the client.  The five-second polling loop
of `start_conversation` (lines 338-353) is abstracted by a boolean stating
whether the readiness event arrives within the window; `connect` catches every
exception internally and returns a boolean (lines 98-155), so the translation
is a total boolean function — no exception can escape.
-/

/-- `ElevenLabsVoiceHandler.start_conversation` (lines 338-353): reconnect if
needed (failure returns `false`), then report whether readiness arrived within
the 5-second window (timeout returns `false`; nothing is raised). -/
def start_conversation (connected connectOk readyInTime : Bool) : Bool :=
  if ¬(connected = true) ∧ ¬(connectOk = true) then false
  else readyInTime

/-- Control messages sent to the client transport in the modelled paths. -/
inductive ClientMsg where
  | status (status : String) (started : Bool) (reason : String)
deriving Repr, DecidableEq

/-- Session state relevant to the pre-start audio path. -/
structure SessionVad where
  is_active : Bool
  started : Bool
  vad : VadState
deriving Repr, DecidableEq

/-- `StandupVoiceSession.process_audio` (lines 181-226) for one frame, with the
bridge's `start_conversation` outcome supplied as `startOk`: before the
upstream conversation has started, run the gate; when it fires and the start
succeeds, mark the conversation started and emit one "started" status message;
when the start fails, emit nothing and return without forwarding.  The third
component records whether the frame was forwarded upstream. -/
def processAudioPre (s : SessionVad) (startOk : Bool) (rms : ℚ) :
    SessionVad × List ClientMsg × Bool :=
  if ¬(s.is_active = true) then (s, [], false)
  else if s.started then (s, [], true)
  else
    let g := gateStep s.vad rms
    if g.2.1 then
      if startOk then
        ({ s with vad := g.1, started := true },
         [ClientMsg.status "started" true g.2.2], true)
      else ({ s with vad := g.1 }, [], false)
    else ({ s with vad := g.1 }, [], false)

/-- The `force_start` branch of `handle_voice_websocket` (lines 522-530): the
only place a failed start is surfaced to the client as a status event. -/
def forceStartMsgs (hasBridge started ok : Bool) : List ClientMsg :=
  if hasBridge = true ∧ ¬(started = true) then
    [ClientMsg.status (if ok then "started" else "error") ok "force"]
  else []

/-- Counterexample to C5: in a run where the gate fires on the first frame but
the readiness event does not arrive in time, `start_conversation` reports
failure — and the audio path sends the client no message at all, contradicting
the claim that the timeout is surfaced to the client transport as a status
event. -/
theorem timeout_not_surfaced_in_audio_path :
    start_conversation true true false = false ∧
    (processAudioPre ⟨true, false, vadInit⟩ false (1 / 100)).2.1 = [] := by
  constructor
  · rfl
  · simp only [processAudioPre]
    split
    · simp_all
    · split
      · simp_all
      · split <;> simp

/-- C5 (amended): when the readiness event does not arrive within the window,
`start_conversation` returns failure without raising; the session stays active
and un-started (non-fatal), but no status event is emitted on the audio path —
only an explicit force-start request surfaces the failure to the client as a
status event. -/
theorem readiness_timeout_nonfatal (s : SessionVad) (rms : ℚ)
    (connected connectOk : Bool)
    (hact : s.is_active = true) (hstart : s.started = false) :
    start_conversation connected connectOk false = false ∧
    (processAudioPre s false rms).2.1 = [] ∧
    (processAudioPre s false rms).1.is_active = true ∧
    (processAudioPre s false rms).1.started = false ∧
    forceStartMsgs true false false = [ClientMsg.status "error" false "force"] := by
  refine ⟨?_, ?_, ?_, ?_, by simp [forceStartMsgs]⟩
  · unfold start_conversation
    split <;> rfl
  all_goals
    simp only [processAudioPre, hact, hstart]
    split <;> simp [hact, hstart]

/-- Witness for C5's amended theorem at a fresh active session. -/
theorem readiness_timeout_nonfatal_witness :
    (processAudioPre ⟨true, false, vadInit⟩ false (5 / 1000)).1.is_active = true :=
  (readiness_timeout_nonfatal ⟨true, false, vadInit⟩ (5 / 1000) true true rfl rfl).2.2.1


/-!
Session-end model (`voice_endpoint.py`, `_end_session` lines 341-445 and the
websocket handler's stop / end-call / disconnect triggers, lines 513-566).
The model is deliberately non-atomic: in the source, the `is_active` guard
(line 347) and the clearing of `is_active` (line 445) are separated by
suspension points, chiefly `await standup_summary_service.process_session_end`
at line 390, and the upstream end-call trigger runs in the background listener
task created at `elevenlabs_service.py` line 149, concurrently with the main
websocket loop's stop and disconnect paths.  One `_end_session` invocation is
therefore two atomic segments: `enter` runs from the guard check up to the
pipeline await, and `resume` continues after the pipeline and clears
`is_active`; segments of distinct invocations interleave at the await, exactly
as asyncio's cooperative scheduler allows.  `pipeline_runs` counts invocations
of `standup_summary_service.process_session_end`.
-/

/-- Session flags consulted by `_end_session`, the number of invocations
currently suspended at the pipeline await, and an instrumentation counter for
pipeline invocations. -/
structure ConcSess where
  is_active : Bool
  conversation_started : Bool
  has_transcripts : Bool
  in_flight : Nat
  pipeline_runs : Nat
deriving Repr, DecidableEq

/-- The two atomic segments of one `_end_session` invocation, split at the
`await` of the pipeline call (line 390). -/
inductive EndSeg where
  | enter
  | resume
deriving Repr, DecidableEq

/-- One scheduler step.  `enter`: an end trigger (client "stop" at line 513,
upstream end-call tool at line 339, or the disconnect finally block at lines
561-564 — whose own `is_active and _conversation_started` guard is implied by
this one) starts `_end_session`; an inactive session returns at line 349
without running the pipeline, otherwise the invocation passes the guard, runs
the pipeline when transcripts exist and the conversation started (line 366),
and suspends — `is_active` is still true.  `resume`: a suspended invocation
continues past the pipeline call and clears `is_active` (line 445). -/
def concStep (s : ConcSess) : EndSeg → ConcSess
  | .enter =>
      if ¬(s.is_active = true) then s
      else
        { s with
          in_flight := s.in_flight + 1
          pipeline_runs := s.pipeline_runs +
            (if s.has_transcripts ∧ s.conversation_started = true then 1 else 0) }
  | .resume =>
      match s.in_flight with
      | 0 => s
      | n + 1 => { s with in_flight := n, is_active := false }

/-- A schedule of end-session segments, in execution order. -/
def runEndSegs (s : ConcSess) (segs : List EndSeg) : ConcSess :=
  segs.foldl concStep s

/-- C1: the at-most-once claim fails in the code under an interleaving the
claim quantifies over.  From a session with transcripts and a started
conversation, the first conjunct is the overlapped schedule — the upstream
end-call tool starts `_end_session` in the listener task and, while it is
suspended in the pipeline call, a client "stop" (or the disconnect finally
block) passes the still-true `is_active` guard — which invokes the pipeline
twice.  The second conjunct shows the serialized schedule, where each
invocation completes before the next trigger, keeps it at one: the guard is
the code's intent and the non-atomic clearing of `is_active` the slip. -/
theorem concurrent_end_triggers_run_pipeline_twice :
    (runEndSegs ⟨true, true, true, 0, 0⟩
      [EndSeg.enter, EndSeg.enter, EndSeg.resume, EndSeg.resume]).pipeline_runs = 2 ∧
    (runEndSegs ⟨true, true, true, 0, 0⟩
      [EndSeg.enter, EndSeg.resume, EndSeg.enter, EndSeg.resume]).pipeline_runs = 1 := by
  decide
